import Mathlib

/-!
# GeoLocalTransform: the binding layer over the ellipsoid engine

`src/transform_pybinds.cpp` wraps three classes of the external geodesy library
(`LocalCartesian`, `UTMUPS`, `Geodesic`).  The library is not part of the repository, so the
embedding takes it as a parameter `Engine F`, where `F` stands for `double`.  Every engine call
may raise the library's exception; the layer has no `try`/`catch`, so an exception leaves the
calling method at once and reaches the caller unchanged (`Except GeographicErr`).
-/

namespace GeoLocal

/-- The exception of the ellipsoid engine (`GeographicLib::GeographicErr`), carrying its text. -/
structure GeographicErr where
  what : String
deriving DecidableEq, Repr

/-- Line 9, `typedef Eigen::Vector3d Point3;`: three doubles, indexed `[0]`, `[1]`, `[2]`. -/
structure Point3 (F : Type) where
  c0 : F
  c1 : F
  c2 : F
deriving DecidableEq, Repr

/-- Modelled from the spec: the state of `GeographicLib::LocalCartesian`, the class of the
member `geo_obj_` (line 12); the class is the engine's and is not under `src/`.  Spec section 3:
the transformer "owns one origin GeodeticPoint plus whatever internal precomputed constants the
ellipsoid engine derives from it".  `C` is the engine's type of derived constants. -/
structure LocalCartesian (F C : Type) where
  lat0 : F
  lon0 : F
  h0 : F
  consts : C

/-- The ellipsoid engine as the layer sees it: one field for each library entry point that
`src/transform_pybinds.cpp` calls, with the arguments in the order in which the source passes
them and the output references collected in a tuple. -/
structure Engine (F : Type) where
  /-- the constants a `LocalCartesian` object keeps besides its origin -/
  Consts : Type
  /-- the object that `LocalCartesian()` builds (member initialisation of line 15) -/
  LocalCartesian_default : LocalCartesian F Consts
  /-- the constants the engine derives from an origin `(lat0, lon0, h0)` -/
  LocalCartesian_derive : F → F → F → Except GeographicErr Consts
  /-- the call `geo_obj_.Forward(lat, lon, h, x, y, z)`, outputs `(x, y, z)` -/
  LocalCartesian_Forward :
    LocalCartesian F Consts → F → F → F → Except GeographicErr (F × F × F)
  /-- the call `geo_obj_.Reverse(x, y, z, lat, lon, h)`, outputs `(lat, lon, h)` -/
  LocalCartesian_Reverse :
    LocalCartesian F Consts → F → F → F → Except GeographicErr (F × F × F)
  /-- the call `UTMUPS::StandardZone(lat, lon)` -/
  UTMUPS_StandardZone : F → F → Except GeographicErr Int
  /-- the call `UTMUPS::Forward(lat, lon, zone, northp, x, y, gamma, k)`,
  outputs `(zone, northp, x, y, gamma, k)` -/
  UTMUPS_Forward : F → F → Except GeographicErr (Int × Bool × F × F × F × F)
  /-- the call `UTMUPS::Reverse(zone, northp, x, y, lat, lon, gamma, k)`,
  outputs `(lat, lon, gamma, k)` -/
  UTMUPS_Reverse : Int → Bool → F → F → Except GeographicErr (F × F × F × F)
  /-- the call `Geodesic::WGS84().Inverse(lat1, lon1, lat2, lon2, s12, azi1, azi2)`,
  outputs `(s12, azi1, azi2)` -/
  Geodesic_Inverse : F → F → F → F → Except GeographicErr (F × F × F)
  /-- the call `Geodesic::WGS84().Direct(lat1, lon1, azi1, s12, lat2, lon2, azi2)`,
  outputs `(lat2, lon2, azi2)` -/
  Geodesic_Direct : F → F → F → F → Except GeographicErr (F × F × F)

section Layer

variable {F : Type}

/-- Modelled from the spec: the constructor `LocalCartesian(lat0, lon0, h0)` of the engine (not
under `src/`).  Spec section 4.1: "transformer with origin set to the given geodetic point; all
derived projection constants computed immediately". -/
def LocalCartesian.init (E : Engine F) (lat0 lon0 h0 : F) :
    Except GeographicErr (LocalCartesian F E.Consts) :=
  match E.LocalCartesian_derive lat0 lon0 h0 with
  | .error e => .error e
  | .ok c => .ok ⟨lat0, lon0, h0, c⟩

/-- Modelled from the spec: the method `LocalCartesian::Reset(lat0, lon0, h0)` of the engine
(not under `src/`).  Spec section 4.1: Reset "replaces the origin and all derived constants". -/
def LocalCartesian.Reset (E : Engine F) (g : LocalCartesian F E.Consts) (lat0 lon0 h0 : F) :
    Except GeographicErr (LocalCartesian F E.Consts) :=
  match E.LocalCartesian_derive lat0 lon0 h0 with
  | .error e => .error e
  | .ok c => .ok { g with lat0 := lat0, lon0 := lon0, h0 := h0, consts := c }

/-- Lines 10-13: the class has the single member `geo_obj_`. -/
structure GeoLocalTransform (E : Engine F) where
  geo_obj_ : LocalCartesian F E.Consts

/-- Line 15, `GeoLocalTransform() {}`: the member is default-constructed and nothing else is
done. -/
def GeoLocalTransform.Construct (E : Engine F) : GeoLocalTransform E :=
  ⟨E.LocalCartesian_default⟩

/-- Lines 17-19, `GeoLocalTransform(lat, lon, height)`: the member is default-constructed, then
overwritten by the assignment `geo_obj_ = LocalCartesian(lat, lon, height)`. -/
def GeoLocalTransform.Construct3 (E : Engine F) (lat lon height : F) :
    Except GeographicErr (GeoLocalTransform E) :=
  let t : GeoLocalTransform E := ⟨E.LocalCartesian_default⟩
  match LocalCartesian.init E lat lon height with
  | .error e => .error e
  | .ok g => .ok { t with geo_obj_ := g }

/-- Lines 21-23, `Reset`: `geo_obj_.Reset(lat, lon, height)` on the member, in place.  The result
is the object after the call; an engine exception leaves the method. -/
def GeoLocalTransform.Reset (E : Engine F) (t : GeoLocalTransform E) (lat lon height : F) :
    Except GeographicErr (GeoLocalTransform E) :=
  match LocalCartesian.Reset E t.geo_obj_ lat lon height with
  | .error e => .error e
  | .ok g => .ok { t with geo_obj_ := g }

/-- Lines 25-30, `Forward`: the engine writes `xyz[0]`, `xyz[1]`, `xyz[2]`. -/
def GeoLocalTransform.Forward (E : Engine F) (t : GeoLocalTransform E) (lat lon height : F) :
    Except GeographicErr (Point3 F) :=
  match E.LocalCartesian_Forward t.geo_obj_ lat lon height with
  | .error e => .error e
  | .ok (x, y, z) => .ok ⟨x, y, z⟩

/-- Lines 32-36, `Reverse`: the engine writes `lla[0]`, `lla[1]`, `lla[2]`. -/
def GeoLocalTransform.Reverse (E : Engine F) (t : GeoLocalTransform E) (x y height : F) :
    Except GeographicErr (Point3 F) :=
  match E.LocalCartesian_Reverse t.geo_obj_ x y height with
  | .error e => .error e
  | .ok (lat, lon, h) => .ok ⟨lat, lon, h⟩

/-- Lines 38-40, static `UTMStandardZone`. -/
def UTMStandardZone (E : Engine F) (lat lon : F) : Except GeographicErr Int :=
  E.UTMUPS_StandardZone lat lon

/-- Lines 42-52, static `UTMForward`: the zone, hemisphere, `gamma` and `k` that the engine
writes are dropped, and `xyz[2] = 0`. -/
def UTMForward [Zero F] (E : Engine F) (lat lon : F) : Except GeographicErr (Point3 F) :=
  match E.UTMUPS_Forward lat lon with
  | .error e => .error e
  | .ok (_zone, _northp, x, y, _gamma, _k) => .ok ⟨x, y, 0⟩

/-- Lines 54-68, static `UTMReverse`: the forward projection of the hint `(lat, lon)` is run for
its `zone` and `northp` only, then `(x, y)` is projected back in that zone and hemisphere, and
`lla[2] = 0`. -/
def UTMReverse [Zero F] (E : Engine F) (x y lat lon : F) : Except GeographicErr (Point3 F) :=
  match E.UTMUPS_Forward lat lon with
  | .error e => .error e
  | .ok (zone, northp, _x0, _y0, _gamma0, _k0) =>
    match E.UTMUPS_Reverse zone northp x y with
    | .error e => .error e
    | .ok (lat2, lon2, _gamma, _k) => .ok ⟨lat2, lon2, 0⟩

/-- Lines 70-77, static `GeodesicInverse`: `Point3(s12, azi1, azi2)`. -/
def GeodesicInverse (E : Engine F) (lat1 lon1 lat2 lon2 : F) : Except GeographicErr (Point3 F) :=
  match E.Geodesic_Inverse lat1 lon1 lat2 lon2 with
  | .error e => .error e
  | .ok (s12, azi1, azi2) => .ok ⟨s12, azi1, azi2⟩

/-- Lines 79-85, static `GeodesicDirect`: `Point3(lat2, lon2, azi2)`. -/
def GeodesicDirect (E : Engine F) (lat1 lon1 azi1 s12 : F) : Except GeographicErr (Point3 F) :=
  match E.Geodesic_Direct lat1 lon1 azi1 s12 with
  | .error e => .error e
  | .ok (lat2, lon2, azi2) => .ok ⟨lat2, lon2, azi2⟩

/-- The engine law that C10 presupposes: within the zone and hemisphere in which the forward
projection placed a point, the reverse projection returns that point. -/
def Engine.ReverseInvertsForward (E : Engine F) : Prop :=
  ∀ (lat lon : F) (zone : Int) (northp : Bool) (x y gamma k : F),
    E.UTMUPS_Forward lat lon = .ok (zone, northp, x, y, gamma, k) →
    ∃ gamma2 k2, E.UTMUPS_Reverse zone northp x y = .ok (lat, lon, gamma2, k2)

end Layer

section Reference

/-- Modelled from the spec: the longitude normalisation of the engine (not under `src/`).  Spec
section 3: longitude is in [-180, 180] "or any representation the ellipsoid engine normalizes";
the representative taken here lies in [-180, 180), so that 180 falls in the band of -180. -/
def AngNormalize (lon : ℚ) : ℚ :=
  lon - 360 * ⌊(lon + 180) / 360⌋

/-- Modelled from the spec: `GeographicLib::UTMUPS::StandardZone(lat, lon)`, a function of the
engine that is not under `src/`.  Spec section 4.2: "the standard UTM zone number for a geodetic
point, per the standard UTM zoning convention (6° longitude bands, with the usual Norway/Svalbard
exceptions ...)": band `n` covers the longitudes from `6 n - 186` up to `6 n - 180`; between
56°N and 64°N zone 32 starts at 3°E; from 72°N on, the zones 31, 33, 35, 37 share the longitudes
0°E to 42°E.  Outside the UTM latitudes [-80, 84) the pseudo-zone 0 (polar) is returned. -/
def StandardZone (lat lon : ℚ) : Int :=
  if -80 ≤ lat ∧ lat < 84 then
    let l := AngNormalize lon
    if 56 ≤ lat ∧ lat < 64 ∧ 3 ≤ l ∧ l < 6 then 32
    else if 72 ≤ lat ∧ 0 ≤ l ∧ l < 42 then
      (if l < 9 then 31 else if l < 21 then 33 else if l < 33 then 35 else 37)
    else ⌊(l + 180) / 6⌋ + 1
  else 0

/-- A small executable engine over the rationals, on which the layer can be run on concrete
inputs.  It charts the ellipsoid as a plane, one unit per degree: local coordinates are
differences to the origin (east, north, up), a UTM easting is the offset from the central meridian
`6 zone - 183` of the zone, a southern northing carries a false northing of 100, and the forward
projection rejects latitudes outside [-90, 90].  It is a stand-in used only where a concrete
engine is needed. -/
def chartEngine : Engine ℚ where
  Consts := Unit
  LocalCartesian_default := ⟨0, 0, 0, ()⟩
  LocalCartesian_derive := fun _ _ _ => .ok ()
  LocalCartesian_Forward := fun g lat lon h => .ok (lon - g.lon0, lat - g.lat0, h - g.h0)
  LocalCartesian_Reverse := fun g x y z => .ok (y + g.lat0, x + g.lon0, z + g.h0)
  UTMUPS_StandardZone := fun lat lon => .ok (StandardZone lat lon)
  UTMUPS_Forward := fun lat lon =>
    if lat < -90 ∨ 90 < lat then .error ⟨"Latitude not in [-90d, 90d]"⟩
    else .ok (StandardZone lat lon, decide (0 ≤ lat),
      lon - (6 * (StandardZone lat lon : ℚ) - 183), (if 0 ≤ lat then lat else lat + 100), 0, 1)
  UTMUPS_Reverse := fun zone northp x y =>
    .ok ((if northp then y else y - 100), x + (6 * (zone : ℚ) - 183), 0, 1)
  Geodesic_Inverse := fun lat1 lon1 lat2 lon2 => .ok (|lat2 - lat1| + |lon2 - lon1|, 0, 0)
  Geodesic_Direct := fun lat1 lon1 azi1 s12 => .ok (lat1 + s12, lon1, azi1)

end Reference

section LayerTheorems

variable {F : Type}

/-- C5: whenever the engine's forward projection of `(lat, lon)` succeeds, in the zone and
hemisphere it selected itself, with easting `x` and northing `y`, `UTMForward(lat, lon)` returns
`(x, y, 0)`; the only inputs are `lat` and `lon`. -/
theorem UTMForward_engine_projection [Zero F] (E : Engine F) (lat lon : F) (zone : Int)
    (northp : Bool) (x y gamma k : F)
    (h : E.UTMUPS_Forward lat lon = .ok (zone, northp, x, y, gamma, k)) :
    UTMForward E lat lon = .ok ⟨x, y, 0⟩ := by
  simp [UTMForward, h]

/-- C6: when the engine's forward projection puts the hint `(lat, lon)` in `zone` and
hemisphere `northp`, `UTMReverse(x, y, lat, lon)` is the engine's reverse projection of `(x, y)`
in that zone and hemisphere with third component 0; a second hint that the engine puts in the
same zone and hemisphere gives the same result; and the third component of every result is 0. -/
theorem UTMReverse_hint_picks_zone [Zero F] (E : Engine F) (x y lat lon lat1 lon1 : F)
    (zone : Int) (northp : Bool) (x0 y0 gamma0 k0 x1 y1 gamma1 k1 : F)
    (h : E.UTMUPS_Forward lat lon = .ok (zone, northp, x0, y0, gamma0, k0))
    (h1 : E.UTMUPS_Forward lat1 lon1 = .ok (zone, northp, x1, y1, gamma1, k1)) :
    UTMReverse E x y lat lon
        = (E.UTMUPS_Reverse zone northp x y).map (fun r => ⟨r.1, r.2.1, 0⟩)
      ∧ UTMReverse E x y lat lon = UTMReverse E x y lat1 lon1
      ∧ ∀ (a b : F) (p : Point3 F), UTMReverse E x y a b = .ok p → p.c2 = 0 := by
  refine ⟨?_, ?_, ?_⟩
  · simp only [UTMReverse, h]
    cases E.UTMUPS_Reverse zone northp x y <;> rfl
  · simp only [UTMReverse, h, h1]
  · intro a b p hp
    simp only [UTMReverse] at hp
    split at hp
    · cases hp
    · split at hp
      · cases hp
      · cases hp
        rfl

/-- With the hint's forward projection in `zone` and hemisphere `northp`, `UTMReverse` is the
engine's reverse projection in that zone and hemisphere, third component 0. -/
theorem UTMReverse_of_hint [Zero F] (E : Engine F) (x y lat lon : F) (zone : Int)
    (northp : Bool) (x0 y0 gamma0 k0 : F)
    (h : E.UTMUPS_Forward lat lon = .ok (zone, northp, x0, y0, gamma0, k0)) :
    UTMReverse E x y lat lon
      = (E.UTMUPS_Reverse zone northp x y).map (fun r => ⟨r.1, r.2.1, 0⟩) := by
  simp only [UTMReverse, h]
  cases E.UTMUPS_Reverse zone northp x y <;> rfl

/-- C10: for an engine whose reverse projection inverts its forward projection within a zone
and hemisphere, if `UTMForward(lat, lon)` returns `p` then `p = (x, y, 0)` and
`UTMReverse(x, y, lat, lon)` returns `(lat, lon, 0)`.  Moreover the zone and hemisphere in which
the engine projected `(lat, lon)` to `(x, y)` for `UTMForward` are the ones in which `UTMReverse`
with the hint `(lat, lon)` projects back, whatever point it is given. -/
theorem UTM_round_trip [Zero F] (E : Engine F) (hE : E.ReverseInvertsForward) (lat lon : F)
    (p : Point3 F) (h : UTMForward E lat lon = .ok p) :
    p.c2 = 0 ∧ UTMReverse E p.c0 p.c1 lat lon = .ok ⟨lat, lon, 0⟩
      ∧ ∃ (zone : Int) (northp : Bool) (gamma k : F),
          E.UTMUPS_Forward lat lon = .ok (zone, northp, p.c0, p.c1, gamma, k)
            ∧ ∀ x y : F, UTMReverse E x y lat lon
                = (E.UTMUPS_Reverse zone northp x y).map (fun r => ⟨r.1, r.2.1, 0⟩) := by
  simp only [UTMForward] at h
  split at h
  · cases h
  · rename_i zone northp x y gamma k hf
    cases h
    obtain ⟨gamma2, k2, hr⟩ := hE lat lon zone northp x y gamma k hf
    refine ⟨rfl, by simp [UTMReverse, hf, hr], zone, northp, gamma, k, hf, ?_⟩
    intro x1 y1
    exact UTMReverse_of_hint E x1 y1 lat lon zone northp x y gamma k hf

/-- C3: on a transformer in any state, `Reset(lat, lon, height)` has the outcome of the
constructor `GeoLocalTransform(lat, lon, height)`: the same object, or the same engine error; so
every `Forward` and every `Reverse` call after it returns what the same call returns on a freshly
constructed transformer. -/
theorem Reset_replaces_origin (E : Engine F) (t : GeoLocalTransform E) (lat lon height : F) :
    GeoLocalTransform.Reset E t lat lon height = GeoLocalTransform.Construct3 E lat lon height
      ∧ (∀ a b c : F,
          (GeoLocalTransform.Reset E t lat lon height).bind
              (fun u => GeoLocalTransform.Forward E u a b c)
            = (GeoLocalTransform.Construct3 E lat lon height).bind
              (fun u => GeoLocalTransform.Forward E u a b c))
      ∧ (∀ a b c : F,
          (GeoLocalTransform.Reset E t lat lon height).bind
              (fun u => GeoLocalTransform.Reverse E u a b c)
            = (GeoLocalTransform.Construct3 E lat lon height).bind
              (fun u => GeoLocalTransform.Reverse E u a b c)) := by
  have key : GeoLocalTransform.Reset E t lat lon height
      = GeoLocalTransform.Construct3 E lat lon height := by
    simp only [GeoLocalTransform.Reset, GeoLocalTransform.Construct3, LocalCartesian.Reset,
      LocalCartesian.init]
  refine ⟨key, ?_, ?_⟩
  · intro a b c
    rw [key]
  · intro a b c
    rw [key]

/-- C4, as amended: on a transformer built by the no-argument constructor the layer checks no
state.  `Forward` and `Reverse` fail exactly with the error, and return exactly the triple, of the
engine's `Forward` and `Reverse` on the engine's default-constructed object. -/
theorem Construct_no_state_check (E : Engine F) (a b c : F) :
    (∀ e, GeoLocalTransform.Forward E (GeoLocalTransform.Construct E) a b c = .error e
        ↔ E.LocalCartesian_Forward E.LocalCartesian_default a b c = .error e)
      ∧ (∀ p : Point3 F,
        GeoLocalTransform.Forward E (GeoLocalTransform.Construct E) a b c = .ok p
        ↔ E.LocalCartesian_Forward E.LocalCartesian_default a b c = .ok (p.c0, p.c1, p.c2))
      ∧ (∀ e, GeoLocalTransform.Reverse E (GeoLocalTransform.Construct E) a b c = .error e
        ↔ E.LocalCartesian_Reverse E.LocalCartesian_default a b c = .error e)
      ∧ (∀ p : Point3 F,
        GeoLocalTransform.Reverse E (GeoLocalTransform.Construct E) a b c = .ok p
        ↔ E.LocalCartesian_Reverse E.LocalCartesian_default a b c = .ok (p.c0, p.c1, p.c2)) := by
  refine ⟨?_, ?_, ?_, ?_⟩
  · intro e
    simp only [GeoLocalTransform.Forward, GeoLocalTransform.Construct]
    cases E.LocalCartesian_Forward E.LocalCartesian_default a b c <;> simp
  · rintro ⟨p0, p1, p2⟩
    simp only [GeoLocalTransform.Forward, GeoLocalTransform.Construct]
    rcases E.LocalCartesian_Forward E.LocalCartesian_default a b c with e | ⟨x, y, z⟩ <;> simp
  · intro e
    simp only [GeoLocalTransform.Reverse, GeoLocalTransform.Construct]
    cases E.LocalCartesian_Reverse E.LocalCartesian_default a b c <;> simp
  · rintro ⟨p0, p1, p2⟩
    simp only [GeoLocalTransform.Reverse, GeoLocalTransform.Construct]
    rcases E.LocalCartesian_Reverse E.LocalCartesian_default a b c with e | ⟨x, y, z⟩ <;> simp

/-- The 3-argument constructor fails or returns as the engine's constructor does. -/
theorem Construct3_outcome (E : Engine F) (a b c : F) :
    (∀ e, GeoLocalTransform.Construct3 E a b c = .error e
        ↔ LocalCartesian.init E a b c = .error e)
      ∧ (∀ u : GeoLocalTransform E, GeoLocalTransform.Construct3 E a b c = .ok u
        ↔ LocalCartesian.init E a b c = .ok u.geo_obj_) := by
  constructor
  · intro e
    simp only [GeoLocalTransform.Construct3]
    cases LocalCartesian.init E a b c <;> simp
  · rintro ⟨g⟩
    simp only [GeoLocalTransform.Construct3]
    cases LocalCartesian.init E a b c <;> simp

/-- The method `Reset` fails or returns as the engine's `Reset` on the member does. -/
theorem Reset_outcome (E : Engine F) (t : GeoLocalTransform E) (a b c : F) :
    (∀ e, GeoLocalTransform.Reset E t a b c = .error e
        ↔ LocalCartesian.Reset E t.geo_obj_ a b c = .error e)
      ∧ (∀ u : GeoLocalTransform E, GeoLocalTransform.Reset E t a b c = .ok u
        ↔ LocalCartesian.Reset E t.geo_obj_ a b c = .ok u.geo_obj_) := by
  constructor
  · intro e
    simp only [GeoLocalTransform.Reset]
    cases LocalCartesian.Reset E t.geo_obj_ a b c <;> simp
  · rintro ⟨g⟩
    simp only [GeoLocalTransform.Reset]
    cases LocalCartesian.Reset E t.geo_obj_ a b c <;> simp

/-- The method `Forward` fails or returns as the engine's `Forward` on the member does, with the
three outputs in the engine's order. -/
theorem Forward_outcome (E : Engine F) (t : GeoLocalTransform E) (a b c : F) :
    (∀ e, GeoLocalTransform.Forward E t a b c = .error e
        ↔ E.LocalCartesian_Forward t.geo_obj_ a b c = .error e)
      ∧ (∀ p : Point3 F, GeoLocalTransform.Forward E t a b c = .ok p
        ↔ E.LocalCartesian_Forward t.geo_obj_ a b c = .ok (p.c0, p.c1, p.c2)) := by
  constructor
  · intro e
    simp only [GeoLocalTransform.Forward]
    rcases E.LocalCartesian_Forward t.geo_obj_ a b c with e1 | ⟨x, y, z⟩ <;> simp
  · rintro ⟨p0, p1, p2⟩
    simp only [GeoLocalTransform.Forward]
    rcases E.LocalCartesian_Forward t.geo_obj_ a b c with e1 | ⟨x, y, z⟩ <;> simp

/-- The function `UTMForward` fails as the engine's forward projection does, and returns its
easting and northing with third component 0. -/
theorem UTMForward_outcome [Zero F] (E : Engine F) (a b : F) :
    (∀ e, UTMForward E a b = .error e ↔ E.UTMUPS_Forward a b = .error e)
      ∧ (∀ p : Point3 F, UTMForward E a b = .ok p
        ↔ p.c2 = 0 ∧ ∃ (zone : Int) (northp : Bool) (gamma k : F),
            E.UTMUPS_Forward a b = .ok (zone, northp, p.c0, p.c1, gamma, k)) := by
  constructor
  · intro e
    simp only [UTMForward]
    rcases E.UTMUPS_Forward a b with e1 | ⟨zone, northp, x, y, g, k⟩ <;> simp
  · rintro ⟨p0, p1, p2⟩
    simp only [UTMForward]
    rcases E.UTMUPS_Forward a b with e1 | ⟨zone, northp, x, y, g, k⟩
    · simp
    · simp only [Except.ok.injEq, Point3.mk.injEq, Prod.mk.injEq]
      constructor
      · rintro ⟨hx, hy, hz⟩
        exact ⟨hz.symm, zone, northp, g, k, rfl, rfl, hx, hy, rfl, rfl⟩
      · rintro ⟨hz, zone1, northp1, g1, k1, -, -, hx, hy, -, -⟩
        exact ⟨hx, hy, hz.symm⟩

/-- The function `UTMReverse` fails with the error of the hint's forward projection, or else of
the reverse projection in the hint's zone and hemisphere, and returns the latitude and longitude
of that reverse projection with third component 0. -/
theorem UTMReverse_outcome [Zero F] (E : Engine F) (x y a b : F) :
    (∀ e, UTMReverse E x y a b = .error e
        ↔ E.UTMUPS_Forward a b = .error e
          ∨ ∃ (zone : Int) (northp : Bool) (x0 y0 gamma0 k0 : F),
              E.UTMUPS_Forward a b = .ok (zone, northp, x0, y0, gamma0, k0)
                ∧ E.UTMUPS_Reverse zone northp x y = .error e)
      ∧ (∀ p : Point3 F, UTMReverse E x y a b = .ok p
        ↔ p.c2 = 0 ∧ ∃ (zone : Int) (northp : Bool) (x0 y0 gamma0 k0 gamma k : F),
            E.UTMUPS_Forward a b = .ok (zone, northp, x0, y0, gamma0, k0)
              ∧ E.UTMUPS_Reverse zone northp x y = .ok (p.c0, p.c1, gamma, k)) := by
  constructor
  · intro e
    rcases hf : E.UTMUPS_Forward a b with e1 | ⟨zone, northp, x0, y0, g0, k0⟩
    · simp [UTMReverse, hf]
    · rw [UTMReverse_of_hint E x y a b zone northp x0 y0 g0 k0 hf]
      constructor
      · intro h
        refine Or.inr ⟨zone, northp, x0, y0, g0, k0, rfl, ?_⟩
        rcases hr : E.UTMUPS_Reverse zone northp x y with e2 | r
        · rw [hr] at h
          simpa [Except.map] using h
        · rw [hr] at h
          cases h
      · rintro (h | ⟨zone1, northp1, x1, y1, g1, k1, heq, hr⟩)
        · cases h
        · cases heq
          rw [hr]
          rfl
  · rintro ⟨p0, p1, p2⟩
    rcases hf : E.UTMUPS_Forward a b with e1 | ⟨zone, northp, x0, y0, g0, k0⟩
    · simp [UTMReverse, hf]
    · rw [UTMReverse_of_hint E x y a b zone northp x0 y0 g0 k0 hf]
      constructor
      · intro h
        rcases hr : E.UTMUPS_Reverse zone northp x y with e2 | ⟨lat2, lon2, g, k⟩
        · rw [hr] at h
          cases h
        · rw [hr] at h
          cases h
          exact ⟨rfl, zone, northp, x0, y0, g0, k0, g, k, rfl, hr⟩
      · rintro ⟨hz, zone1, northp1, x1, y1, g1, k1, g, k, heq, hr⟩
        cases heq
        rw [hr]
        cases hz
        rfl

/-- The function `GeodesicInverse` fails or returns as the engine's inverse solution does, with
the outputs in the order distance, initial azimuth, final azimuth. -/
theorem GeodesicInverse_outcome (E : Engine F) (a b c d : F) :
    (∀ e, GeodesicInverse E a b c d = .error e ↔ E.Geodesic_Inverse a b c d = .error e)
      ∧ (∀ p : Point3 F, GeodesicInverse E a b c d = .ok p
        ↔ E.Geodesic_Inverse a b c d = .ok (p.c0, p.c1, p.c2)) := by
  constructor
  · intro e
    simp only [GeodesicInverse]
    rcases E.Geodesic_Inverse a b c d with e1 | ⟨x, y, z⟩ <;> simp
  · rintro ⟨p0, p1, p2⟩
    simp only [GeodesicInverse]
    rcases E.Geodesic_Inverse a b c d with e1 | ⟨x, y, z⟩ <;> simp

/-- The function `GeodesicDirect` fails or returns as the engine's direct solution does, with the
outputs in the order latitude, longitude, final azimuth. -/
theorem GeodesicDirect_outcome (E : Engine F) (a b c d : F) :
    (∀ e, GeodesicDirect E a b c d = .error e ↔ E.Geodesic_Direct a b c d = .error e)
      ∧ (∀ p : Point3 F, GeodesicDirect E a b c d = .ok p
        ↔ E.Geodesic_Direct a b c d = .ok (p.c0, p.c1, p.c2)) := by
  constructor
  · intro e
    simp only [GeodesicDirect]
    rcases E.Geodesic_Direct a b c d with e1 | ⟨x, y, z⟩ <;> simp
  · rintro ⟨p0, p1, p2⟩
    simp only [GeodesicDirect]
    rcases E.Geodesic_Direct a b c d with e1 | ⟨x, y, z⟩ <;> simp

/-- C9, as amended.  (i) When the engine's UTM/UPS forward projection rejects latitudes outside
[-90, 90], `UTMForward(a, b)` and `UTMReverse(c, d, a, b)` with such a latitude `a` fail with the
engine's error and return no result.  (ii) The layer validates no latitude itself: the 3-argument
constructor, `Reset`, `Forward`, `UTMStandardZone`, `UTMForward`, `UTMReverse`, `GeodesicInverse`
and `GeodesicDirect` fail with an error `e` exactly when the engine call they delegate to fails
with `e`, and (iii) they return a result exactly when the engine call returns, namely the engine's
values in the engine's order (third component 0 for the two UTM projections). -/
theorem layer_delegates_latitude_check [Zero F] [LT F] [Neg F] [OfNat F 90] (E : Engine F)
    (t : GeoLocalTransform E) (a b c d : F) :
    ((∀ lat lon : F, lat < -90 ∨ 90 < lat → ∃ e, E.UTMUPS_Forward lat lon = .error e) →
        a < -90 ∨ 90 < a →
        ∃ e, E.UTMUPS_Forward a b = .error e ∧ UTMForward E a b = .error e
          ∧ UTMReverse E c d a b = .error e)
      ∧ (∀ e,
        (GeoLocalTransform.Construct3 E a b c = .error e
            ↔ LocalCartesian.init E a b c = .error e)
          ∧ (GeoLocalTransform.Reset E t a b c = .error e
            ↔ LocalCartesian.Reset E t.geo_obj_ a b c = .error e)
          ∧ (GeoLocalTransform.Forward E t a b c = .error e
            ↔ E.LocalCartesian_Forward t.geo_obj_ a b c = .error e)
          ∧ (UTMStandardZone E a b = .error e ↔ E.UTMUPS_StandardZone a b = .error e)
          ∧ (UTMForward E a b = .error e ↔ E.UTMUPS_Forward a b = .error e)
          ∧ (UTMReverse E c d a b = .error e
            ↔ E.UTMUPS_Forward a b = .error e
              ∨ ∃ (zone : Int) (northp : Bool) (x0 y0 gamma0 k0 : F),
                  E.UTMUPS_Forward a b = .ok (zone, northp, x0, y0, gamma0, k0)
                    ∧ E.UTMUPS_Reverse zone northp c d = .error e)
          ∧ (GeodesicInverse E a b c d = .error e ↔ E.Geodesic_Inverse a b c d = .error e)
          ∧ (GeodesicDirect E a b c d = .error e ↔ E.Geodesic_Direct a b c d = .error e))
      ∧ (∀ u : GeoLocalTransform E, GeoLocalTransform.Construct3 E a b c = .ok u
          ↔ LocalCartesian.init E a b c = .ok u.geo_obj_)
      ∧ (∀ u : GeoLocalTransform E, GeoLocalTransform.Reset E t a b c = .ok u
          ↔ LocalCartesian.Reset E t.geo_obj_ a b c = .ok u.geo_obj_)
      ∧ (∀ p : Point3 F, GeoLocalTransform.Forward E t a b c = .ok p
          ↔ E.LocalCartesian_Forward t.geo_obj_ a b c = .ok (p.c0, p.c1, p.c2))
      ∧ (∀ z : Int, UTMStandardZone E a b = .ok z ↔ E.UTMUPS_StandardZone a b = .ok z)
      ∧ (∀ p : Point3 F, UTMForward E a b = .ok p
          ↔ p.c2 = 0 ∧ ∃ (zone : Int) (northp : Bool) (gamma k : F),
              E.UTMUPS_Forward a b = .ok (zone, northp, p.c0, p.c1, gamma, k))
      ∧ (∀ p : Point3 F, UTMReverse E c d a b = .ok p
          ↔ p.c2 = 0 ∧ ∃ (zone : Int) (northp : Bool) (x0 y0 gamma0 k0 gamma k : F),
              E.UTMUPS_Forward a b = .ok (zone, northp, x0, y0, gamma0, k0)
                ∧ E.UTMUPS_Reverse zone northp c d = .ok (p.c0, p.c1, gamma, k))
      ∧ (∀ p : Point3 F, GeodesicInverse E a b c d = .ok p
          ↔ E.Geodesic_Inverse a b c d = .ok (p.c0, p.c1, p.c2))
      ∧ (∀ p : Point3 F, GeodesicDirect E a b c d = .ok p
          ↔ E.Geodesic_Direct a b c d = .ok (p.c0, p.c1, p.c2)) := by
  refine ⟨?_, ?_, (Construct3_outcome E a b c).2, (Reset_outcome E t a b c).2,
    (Forward_outcome E t a b c).2, fun z => Iff.rfl, (UTMForward_outcome E a b).2,
    (UTMReverse_outcome E c d a b).2, (GeodesicInverse_outcome E a b c d).2,
    (GeodesicDirect_outcome E a b c d).2⟩
  · intro hrej ha
    obtain ⟨e, he⟩ := hrej a b ha
    exact ⟨e, he, ((UTMForward_outcome E a b).1 e).mpr he,
      ((UTMReverse_outcome E c d a b).1 e).mpr (Or.inl he)⟩
  · intro e
    exact ⟨(Construct3_outcome E a b c).1 e, (Reset_outcome E t a b c).1 e,
      (Forward_outcome E t a b c).1 e, Iff.rfl, (UTMForward_outcome E a b).1 e,
      (UTMReverse_outcome E c d a b).1 e, (GeodesicInverse_outcome E a b c d).1 e,
      (GeodesicDirect_outcome E a b c d).1 e⟩

end LayerTheorems

section ReferenceTheorems

/-- The normalised longitude lies in [-180, 180). -/
theorem AngNormalize_range (lon : ℚ) : -180 ≤ AngNormalize lon ∧ AngNormalize lon < 180 := by
  unfold AngNormalize
  have h1 := Int.floor_le ((lon + 180) / 360)
  have h2 := Int.lt_floor_add_one ((lon + 180) / 360)
  constructor <;> linarith

/-- At the UTM latitudes the standard zone is one of 1, ..., 60. -/
theorem StandardZone_range (lat lon : ℚ) (h : -80 ≤ lat ∧ lat < 84) :
    1 ≤ StandardZone lat lon ∧ StandardZone lat lon ≤ 60 := by
  obtain ⟨hl, hu⟩ := AngNormalize_range lon
  have h0 : 0 ≤ ⌊(AngNormalize lon + 180) / 6⌋ := Int.floor_nonneg.mpr (by linarith)
  have h59 : ⌊(AngNormalize lon + 180) / 6⌋ < 60 := Int.floor_lt.mpr (by push_cast; linarith)
  simp only [StandardZone, if_pos h]
  split_ifs <;> omega

/-- The plane-chart engine reverses its own forward projection. -/
theorem chartEngine_ReverseInvertsForward : chartEngine.ReverseInvertsForward := by
  intro lat lon zone northp x y gamma k h
  simp only [chartEngine] at h
  by_cases hlat : lat < -90 ∨ 90 < lat
  · rw [if_pos hlat] at h
    cases h
  · rw [if_neg hlat] at h
    simp only [Except.ok.injEq, Prod.mk.injEq] at h
    obtain ⟨hz, hn, hx, hy, -, -⟩ := h
    refine ⟨0, 1, ?_⟩
    subst hz hn hx hy
    simp only [chartEngine, Except.ok.injEq, Prod.mk.injEq, and_true]
    constructor
    · by_cases h0 : 0 ≤ lat <;> simp [h0]
    · ring

/-- The local forward conversion of the plane-chart engine, unfolded. -/
theorem chartEngine_LocalCartesian_Forward (g : LocalCartesian ℚ chartEngine.Consts)
    (lat lon h : ℚ) :
    chartEngine.LocalCartesian_Forward g lat lon h
      = .ok (lon - g.lon0, lat - g.lat0, h - g.h0) :=
  rfl

/-- The local reverse conversion of the plane-chart engine, unfolded. -/
theorem chartEngine_LocalCartesian_Reverse (g : LocalCartesian ℚ chartEngine.Consts)
    (x y z : ℚ) :
    chartEngine.LocalCartesian_Reverse g x y z = .ok (y + g.lat0, x + g.lon0, z + g.h0) :=
  rfl

/-- The default-constructed object of the plane-chart engine has the origin (0, 0, 0). -/
theorem chartEngine_LocalCartesian_default :
    chartEngine.LocalCartesian_default = ⟨0, 0, 0, ()⟩ :=
  rfl

/-- On the plane chart the point (37°N, 122°W) lies in zone 10, northern hemisphere, one
degree east of the central meridian. -/
theorem chartEngine_Forward_sample :
    chartEngine.UTMUPS_Forward 37 (-122) = .ok (10, true, 1, 37, 0, 1) := by
  norm_num [chartEngine, StandardZone, AngNormalize]

/-- On the plane chart the point (30°N, 121°W) lies in zone 10, northern hemisphere as well. -/
theorem chartEngine_Forward_sample2 :
    chartEngine.UTMUPS_Forward 30 (-121) = .ok (10, true, 2, 30, 0, 1) := by
  norm_num [chartEngine, StandardZone, AngNormalize]

/-- C7: with the standard zoning convention as the engine's `StandardZone`, for every latitude
in the UTM range [-80, 84) and every longitude, `UTMStandardZone(lat, lon)` returns an integer
between 1 and 60; it is a function of its two arguments (the method is static and reads no
transformer); and `UTMStandardZone(0, 0)` is 31. -/
theorem UTMStandardZone_range (E : Engine ℚ)
    (hE : ∀ lat lon, E.UTMUPS_StandardZone lat lon = .ok (StandardZone lat lon))
    (lat lon : ℚ) (hlat : -80 ≤ lat ∧ lat < 84) :
    (∃ z : Int, UTMStandardZone E lat lon = .ok z ∧ 1 ≤ z ∧ z ≤ 60)
      ∧ UTMStandardZone E 0 0 = .ok 31 := by
  constructor
  · exact ⟨StandardZone lat lon, hE lat lon, StandardZone_range lat lon hlat⟩
  · rw [UTMStandardZone, hE]
    norm_num [StandardZone, AngNormalize]

/-- C7 at the point (37°N, 122°W) on the plane-chart engine. -/
theorem UTMStandardZone_range_witness :
    (-80 ≤ (37 : ℚ) ∧ (37 : ℚ) < 84)
      ∧ (∃ z : Int, UTMStandardZone chartEngine 37 (-122) = .ok z ∧ 1 ≤ z ∧ z ≤ 60)
      ∧ UTMStandardZone chartEngine 0 0 = .ok 31 :=
  ⟨by norm_num, UTMStandardZone_range chartEngine (fun _ _ => rfl) 37 (-122) (by norm_num)⟩

/-- C5 at the point (37°N, 122°W) on the plane-chart engine. -/
theorem UTMForward_engine_projection_witness :
    chartEngine.UTMUPS_Forward 37 (-122) = .ok (10, true, 1, 37, 0, 1)
      ∧ UTMForward chartEngine 37 (-122) = .ok ⟨1, 37, 0⟩ :=
  ⟨chartEngine_Forward_sample,
    UTMForward_engine_projection chartEngine 37 (-122) 10 true 1 37 0 1
      chartEngine_Forward_sample⟩

/-- C6 on the plane-chart engine: the hints (37°N, 122°W) and (30°N, 121°W) are both in zone 10,
northern hemisphere, and yield the same reverse projection of (1, 37). -/
theorem UTMReverse_hint_picks_zone_witness :
    chartEngine.UTMUPS_Forward 37 (-122) = .ok (10, true, 1, 37, 0, 1)
      ∧ chartEngine.UTMUPS_Forward 30 (-121) = .ok (10, true, 2, 30, 0, 1)
      ∧ UTMReverse chartEngine 1 37 37 (-122) = UTMReverse chartEngine 1 37 30 (-121) :=
  ⟨chartEngine_Forward_sample, chartEngine_Forward_sample2,
    (UTMReverse_hint_picks_zone chartEngine 1 37 37 (-122) 30 (-121) 10 true 1 37 0 1 2 30 0 1
      chartEngine_Forward_sample chartEngine_Forward_sample2).2.1⟩

/-- C10 at the point (37°N, 122°W) on the plane-chart engine. -/
theorem UTM_round_trip_witness :
    chartEngine.ReverseInvertsForward
      ∧ UTMForward chartEngine 37 (-122) = .ok ⟨1, 37, 0⟩
      ∧ UTMReverse chartEngine 1 37 37 (-122) = .ok ⟨37, -122, 0⟩ :=
  ⟨chartEngine_ReverseInvertsForward,
    by simp [UTMForward, chartEngine_Forward_sample],
    (UTM_round_trip chartEngine chartEngine_ReverseInvertsForward 37 (-122) ⟨1, 37, 0⟩
      (by simp [UTMForward, chartEngine_Forward_sample])).2.1⟩

/-- C4 fails: on the plane-chart engine, whose default-constructed object has the origin
(0, 0, 0), `Forward(1, 2, 3)` and `Reverse(2, 1, 3)` on a transformer built by the no-argument
constructor return coordinate triples and no error. -/
theorem Construct_Forward_returns_triple :
    GeoLocalTransform.Forward chartEngine (GeoLocalTransform.Construct chartEngine) 1 2 3
        = .ok ⟨2, 1, 3⟩
      ∧ GeoLocalTransform.Reverse chartEngine (GeoLocalTransform.Construct chartEngine) 2 1 3
        = .ok ⟨1, 2, 3⟩
      ∧ ¬ ∃ e, GeoLocalTransform.Forward chartEngine (GeoLocalTransform.Construct chartEngine)
          1 2 3 = .error e := by
  refine ⟨?_, ?_, ?_⟩
  · norm_num [GeoLocalTransform.Forward, GeoLocalTransform.Construct,
      chartEngine_LocalCartesian_Forward, chartEngine_LocalCartesian_default]
  · norm_num [GeoLocalTransform.Reverse, GeoLocalTransform.Construct,
      chartEngine_LocalCartesian_Reverse, chartEngine_LocalCartesian_default]
  · rintro ⟨e, he⟩
    simp [GeoLocalTransform.Forward, GeoLocalTransform.Construct,
      chartEngine_LocalCartesian_Forward] at he

/-- The forward projection of the plane-chart engine rejects latitudes outside [-90, 90]. -/
theorem chartEngine_Forward_rejects (lat lon : ℚ) (h : lat < -90 ∨ 90 < lat) :
    ∃ e, chartEngine.UTMUPS_Forward lat lon = .error e := by
  refine ⟨⟨"Latitude not in [-90d, 90d]"⟩, ?_⟩
  simp only [chartEngine]
  rw [if_pos h]

/-- C9 fails: the latitude 91 is outside [-90, 90], yet on the plane-chart engine, whose
`LocalCartesian`, `StandardZone` and `Geodesic` calls accept any latitude, the 3-argument
constructor, `Reset`, `Forward`, `UTMStandardZone`, `GeodesicInverse` and `GeodesicDirect` return
values and no error. -/
theorem latitude_91_unchecked :
    (90 : ℚ) < 91
      ∧ GeoLocalTransform.Construct3 chartEngine 91 0 0 = .ok ⟨⟨91, 0, 0, ()⟩⟩
      ∧ GeoLocalTransform.Reset chartEngine ⟨⟨37, -122, 0, ()⟩⟩ 91 0 0
        = .ok ⟨⟨91, 0, 0, ()⟩⟩
      ∧ GeoLocalTransform.Forward chartEngine ⟨⟨37, -122, 0, ()⟩⟩ 91 (-122) 0
        = .ok ⟨0, 54, 0⟩
      ∧ UTMStandardZone chartEngine 91 0 = .ok 0
      ∧ GeodesicInverse chartEngine 91 0 91 0 = .ok ⟨0, 0, 0⟩
      ∧ GeodesicDirect chartEngine 91 0 0 0 = .ok ⟨91, 0, 0⟩ := by
  refine ⟨by norm_num, ?_, ?_, ?_, ?_, ?_, ?_⟩
  · rfl
  · rfl
  · norm_num [GeoLocalTransform.Forward, chartEngine_LocalCartesian_Forward]
  · norm_num [UTMStandardZone, chartEngine, StandardZone]
  · norm_num [GeodesicInverse, chartEngine]
  · norm_num [GeodesicDirect, chartEngine]

/-- C9, as amended, on the plane-chart engine: its forward projection rejects the latitude 91,
so `UTMForward(91, 0)` and `UTMReverse(0, 0, 91, 0)` fail with the engine's error. -/
theorem layer_delegates_latitude_check_witness :
    (∀ lat lon : ℚ, lat < -90 ∨ 90 < lat →
        ∃ e, chartEngine.UTMUPS_Forward lat lon = .error e)
      ∧ ((91 : ℚ) < -90 ∨ (90 : ℚ) < 91)
      ∧ ∃ e, chartEngine.UTMUPS_Forward 91 0 = .error e
          ∧ UTMForward chartEngine 91 0 = .error e
          ∧ UTMReverse chartEngine 0 0 91 0 = .error e :=
  ⟨chartEngine_Forward_rejects, Or.inr (by norm_num),
    (layer_delegates_latitude_check chartEngine ⟨⟨37, -122, 0, ()⟩⟩ 91 0 0 0).1
      chartEngine_Forward_rejects (Or.inr (by norm_num))⟩

end ReferenceTheorems

end GeoLocal
